import Mathlib

/-!
Verification of the temperature-analysis dashboard core (src/utils.py and
src/pages/2_Experiments.py) against its specification.

Embedding conventions:
* temperatures and elapsed times are rationals (the claims under scrutiny do
  not depend on floating-point rounding);
* a pandas NaN/NaT cell is `Option.none`;
* pandas comparisons against NaN evaluate to False, modelled by matching on
  the `Option` and returning `false` in the `none` branches;
* pandas `.std()` (Series, GroupBy and Rolling) uses Bessel's correction
  (ddof = 1), so the standard deviation of a single observation is NaN;
* the float test `t > m + 2*s ∨ t < m - 2*s`, with `s` the standard
  deviation, is expressed square-root-free over ℚ as `(t - m)^2 > 4*v`
  where `v = s^2` is the sample variance; the rolling-band theorem proves
  this encoding equivalent to the band form with `Real.sqrt v` over ℝ;
* Python exceptions are `Except String`; code with no handler around a
  fallible call is `mapM`, whose first error aborts the whole computation,
  matching exception propagation.
-/

/-- Mean of a list of rationals: `sum / len` (pandas `mean`).
For the empty list this is `0/0 = 0` in ℚ; every use below guards the
length, mirroring pandas returning NaN there. -/
def listMean (l : List ℚ) : ℚ := l.sum / (l.length : ℚ)

/-- Sample variance with Bessel's correction: `Σ (x - mean)² / (len - 1)`
(the square of pandas `std(ddof=1)`). Guarded by `2 ≤ len` at every use,
mirroring pandas returning NaN for a single observation. -/
def sampleVar (l : List ℚ) : ℚ :=
  ((l.map (fun x => (x - listMean l) ^ 2)).sum) / ((l.length : ℚ) - 1)

/-- `utils.get_season_by_month`: month-to-season mapping; any month not in
the three listed triples (including 0, 13 or negatives) falls to "autumn". -/
def get_season_by_month (month : ℤ) : String :=
  if month = 12 ∨ month = 1 ∨ month = 2 then "winter"
  else if month = 3 ∨ month = 4 ∨ month = 5 then "spring"
  else if month = 6 ∨ month = 7 ∨ month = 8 then "summer"
  else "autumn"

/-- The trailing window of width `w` ending at position `i` (0-based) of a
temperature series: positions `[i-w+1, i]`. This is what
`Series.rolling(window=w)` feeds to its aggregator at row `i`. -/
def windowAt (temps : List ℚ) (w i : ℕ) : List ℚ :=
  (temps.take (i + 1)).drop (i + 1 - w)

/-- `utils.add_rolling` column `roll_mean`:
`temperature.rolling(window=w, min_periods=w).mean()` — defined (non-NaN)
exactly when the window is full, i.e. `w ≤ i+1`. -/
def roll_mean (temps : List ℚ) (w i : ℕ) : Option ℚ :=
  if 1 ≤ w ∧ w ≤ i + 1 then some (listMean (windowAt temps w i)) else none

/-- `utils.add_rolling` column `roll_std`, represented by its square, the
sample variance: `temperature.rolling(window=w, min_periods=w).std()` is NaN
unless the window is full AND holds at least two points (ddof = 1). -/
def roll_var (temps : List ℚ) (w i : ℕ) : Option ℚ :=
  if 2 ≤ w ∧ w ≤ i + 1 then some (sampleVar (windowAt temps w i)) else none

/-- `utils.add_rolling` column `roll_anomaly`:
`roll_mean.notna() & ((t > roll_mean + 2*roll_std) | (t < roll_mean - 2*roll_std))`.
When `roll_std` is NaN both float comparisons are False; when both stats are
defined, the band test is the square-root-free `(t - m)^2 > 4*v`. -/
def roll_anomaly (temps : List ℚ) (w i : ℕ) : Bool :=
  match roll_mean temps w i, roll_var temps w i with
  | some m, some v => decide ((temps.getD i 0 - m) ^ 2 > 4 * v)
  | _, _ => false

/-- One row of the loaded table: columns `city`, `timestamp` (an instant,
modelled as an integer time value; NaT rows are out of scope here since the
claims assume a pre-validated table), `temperature`, `season`. -/
structure Row where
  city : String
  timestamp : ℤ
  temperature : ℚ
  season : String
deriving DecidableEq

/-- `utils.season_stats_for_city` / `analyze_city_block` season group:
the temperatures of the readings carrying season label `s`
(`df_city.groupby("season")["temperature"]`). -/
def season_temps (rows : List Row) (s : String) : List ℚ :=
  (rows.filter (fun r => r.season == s)).map (fun r => r.temperature)

/-- Season `mean` column of `season_stats_for_city`: NaN (none) only when
the season has no readings at all (in-source every joined season has at
least one reading, so the none branch is never hit after the merge). -/
def season_mean (rows : List Row) (s : String) : Option ℚ :=
  if 1 ≤ (season_temps rows s).length then some (listMean (season_temps rows s))
  else none

/-- Season `std` column, represented by its square, the sample variance:
pandas `std` (ddof = 1) is NaN for a season with fewer than two readings. -/
def season_var (rows : List Row) (s : String) : Option ℚ :=
  if 2 ≤ (season_temps rows s).length then some (sampleVar (season_temps rows s))
  else none

/-- `utils.add_season_bounds` column `season_anomaly` (same formula inlined
in `analyze_city_block`):
`(t > season_mean + 2*std) | (t < season_mean - 2*std)` with no notna
guard — a NaN mean or std makes both float comparisons False. -/
def season_anomaly (rows : List Row) (r : Row) : Bool :=
  match season_mean rows r.season, season_var rows r.season with
  | some m, some v => decide ((r.temperature - m) ^ 2 > 4 * v)
  | _, _ => false

/-- Per-city result record returned by `utils.analyze_city_block`;
`period_start`/`period_end` are NaT (none) for an empty slice. -/
structure CityResult where
  city : String
  n_days : ℕ
  period_start : Option ℤ
  period_end : Option ℤ
  rolling_anomalies : ℕ
  season_anomalies : ℕ
deriving DecidableEq

/-- `utils.analyze_city_block`: sort the city slice by timestamp, count
rolling-band anomalies (same formulas as `add_rolling`) and season-band
anomalies (same formulas as `add_season_bounds`), and report the record.
`sort_values` is modelled by a deterministic insertion sort on timestamps. -/
def analyze_city_block (city : String) (df_city : List Row) (window : ℕ) : CityResult :=
  let d := List.insertionSort (fun a b => a.timestamp ≤ b.timestamp) df_city
  let temps := d.map (fun r => r.temperature)
  { city := city
    n_days := d.length
    period_start := (d.map (fun r => r.timestamp)).min?
    period_end := (d.map (fun r => r.timestamp)).max?
    rolling_anomalies := (List.range temps.length).countP (fun i => roll_anomaly temps window i)
    season_anomalies := d.countP (fun r => season_anomaly d r) }

/-- Key set of the dict comprehension
`{c: df[df.city == c] for c in cities}`: a Python dict keeps one entry per
key, positioned at the key's first occurrence — head first, then the
deduplicated tail with later copies of the head filtered out. -/
def firstDedup : List String → List String
  | [] => []
  | c :: cs => c :: (firstDedup cs).filter (fun x => decide (x ≠ c))

/-- `utils.benchmark_historical` group construction `city_groups`. -/
def city_groups (df : List Row) (cities : List String) : List (String × List Row) :=
  (firstDedup cities).map (fun c => (c, df.filter (fun r => r.city == c)))

/-- The sequential strategy of `utils.benchmark_historical`: one
`analyze_city_block` per group, in dict (= first-occurrence) order. -/
def seq_results (df : List Row) (cities : List String) (window : ℕ) : List CityResult :=
  (city_groups df cities).map (fun p => analyze_city_block p.1 p.2 window)

/-- `results_df` construction: `pd.DataFrame(par_results).sort_values("city")`. -/
def sortByCity (results : List CityResult) : List CityResult :=
  List.insertionSort (fun a b => a.city ≤ b.city) results

/-- The speedup field of `utils.benchmark_historical`:
`(t_seq / t_par) if t_par > 0 else None`. The metric labels on the
Experiments page have the same guard, rendering the none case as an
em-dash string. -/
def speedup (t_seq t_par : ℚ) : Option ℚ :=
  if 0 < t_par then some (t_seq / t_par) else none

/-- The dict returned by `utils.benchmark_historical`. -/
structure BenchOutput where
  t_seq : ℚ
  t_par : ℚ
  speedup : Option ℚ
  results_df : List CityResult
deriving DecidableEq

/-- `utils.benchmark_historical`. Wall-clock durations `t_seq`/`t_par` and
the thread pool's nondeterministic collection order are inputs of the
model: `collect` is the reordering performed by gathering futures with
`as_completed` (theorems constrain it to permute its input). The guard
models `ThreadPoolExecutor.__init__` raising ValueError when
`max_workers <= 0`; there is no clamping in the source. -/
def benchmark_historical (df : List Row) (cities : List String) (window : ℕ)
    (workers : ℤ) (t_seq t_par : ℚ)
    (collect : List CityResult → List CityResult) : Except String BenchOutput :=
  if workers ≤ 0 then Except.error "max_workers must be greater than 0"
  else Except.ok
    { t_seq := t_seq
      t_par := t_par
      speedup := speedup t_seq t_par
      results_df := sortByCity (collect (seq_results df cities window)) }

/-- A parsed JSON payload from the weather endpoint: `cod` as a string
(the page compares `str(data.get("cod")) != "200"`), `main.temp` when the
`main` object is present, and an optional `message`. A transport oracle
`String → Except String OwmResponse` stands for one HTTP GET per city:
`Except.error` is a raised transport exception (timeout, DNS, connection),
`Except.ok` a received payload. `utils.fetch_current_weather_sync` and
`fetch_current_weather_async` both resolve to this oracle. -/
structure OwmResponse where
  cod : String
  main_temp : Option ℚ
  message : Option String
deriving DecidableEq

/-- `pages/2_Experiments._extract_temp_from_owm_response`: raise on a
non-"200" `cod`, then read `main.temp` (KeyError when absent). -/
def extract_temp_from_owm_response (data : OwmResponse) : Except String ℚ :=
  if data.cod ≠ "200" then Except.error "API error"
  else
    match data.main_temp with
    | some t => Except.ok t
    | none => Except.error "KeyError"

/-- One output row of `pages/2_Experiments._async_many` (the sync loop in
`tab_api` has the same per-city try/except shape): an exception result or
an extraction failure yields a null temperature for that city only. -/
def async_row (fetch : String → Except String OwmResponse) (c : String) :
    String × Option ℚ :=
  match fetch c with
  | Except.error _ => (c, none)
  | Except.ok data =>
    match extract_temp_from_owm_response data with
    | Except.ok t => (c, some t)
    | Except.error _ => (c, none)

/-- `pages/2_Experiments._async_many`: `asyncio.gather` over one task per
city with `return_exceptions=True`, then `zip(cities_list, results)` —
one row per input city, in input order. -/
def async_many (fetch : String → Except String OwmResponse)
    (cities : List String) : List (String × Option ℚ) :=
  cities.map (async_row fetch)

/-- `utils.fetch_many_cities_async`: gather with `return_exceptions=True`;
an exception becomes a literal error record, any other response is parsed
and appended, preserving input order. -/
def fetch_many_cities_async (fetch : String → Except String OwmResponse)
    (cities : List String) : List OwmResponse :=
  cities.map (fun c =>
    match fetch c with
    | Except.ok data => data
    | Except.error e => { cod := "error", main_temp := none, message := some e })

/-- The per-city loop of `utils.benchmark_historical` — both the
sequential `for` loop and the `as_completed`/`f.result()` collection. The
per-city unit of work is abstracted as a fallible task (on the happy path
it is `fun c => Except.ok (analyze_city_block c rows w)`) to express the
spec's "a failure while processing one city": the loop body has no
exception handler, so the first failure propagates out of the whole
function, exactly as an unhandled Python exception would. -/
def benchmark_city_loop (task : String → Except String CityResult) :
    List String → Except String (List CityResult)
  | [] => Except.ok []
  | c :: cs =>
    match task c with
    | Except.error e => Except.error e
    | Except.ok r =>
      match benchmark_city_loop task cs with
      | Except.error e => Except.error e
      | Except.ok rs => Except.ok (r :: rs)

example : roll_mean [1, 2, 3] 2 1 = some (3 / 2) := by
  norm_num [roll_mean, windowAt, listMean]
example : roll_var [1, 2, 3] 2 1 = some (1 / 2) := by
  norm_num [roll_var, windowAt, listMean, sampleVar]
example : roll_anomaly [0, 0, 0, 0, 0, 1] 6 5 = true := by
  norm_num [roll_anomaly, roll_mean, roll_var, windowAt, listMean, sampleVar]
example : roll_anomaly [1, 2, 3] 2 2 = false := by
  norm_num [roll_anomaly, roll_mean, roll_var, windowAt, listMean, sampleVar]
example : roll_anomaly [1, 2, 3] 1 2 = false := by
  norm_num [roll_anomaly, roll_mean, roll_var, windowAt, listMean, sampleVar]
example : roll_mean [1, 2, 3] 4 2 = none := by
  norm_num [roll_mean]

/-- C10: season assignment is total — every integer month yields one of the
four season strings, and any month outside 1..12 (0, 13, negatives, ...)
falls through the three explicit triples to "autumn". -/
theorem season_assignment_total (m : ℤ) :
    get_season_by_month m ∈ (["winter", "spring", "summer", "autumn"] : List String) ∧
    (¬(1 ≤ m ∧ m ≤ 12) → get_season_by_month m = "autumn") := by
  unfold get_season_by_month
  split_ifs with h1 h2 h3
  · exact ⟨by simp, fun hc => absurd (by omega) hc⟩
  · exact ⟨by simp, fun hc => absurd (by omega) hc⟩
  · exact ⟨by simp, fun hc => absurd (by omega) hc⟩
  · exact ⟨by simp, fun _ => rfl⟩

theorem season_assignment_total_witness :
    get_season_by_month 13 = "autumn" :=
  (season_assignment_total 13).2 (by omega)

/-- C2: rolling-band prefix — rows with fewer than `w` points available
(index `i < w - 1`) have an undefined mean and std and are not flagged;
when `w` exceeds the series length this covers every row of the band. -/
theorem rolling_band_head_rows (temps : List ℚ) (w : ℕ) (hw : 1 ≤ w) :
    (∀ i, i + 1 < w →
      roll_mean temps w i = none ∧ roll_var temps w i = none ∧
        roll_anomaly temps w i = false) ∧
    (temps.length < w → ∀ i, i < temps.length →
      roll_mean temps w i = none ∧ roll_var temps w i = none ∧
        roll_anomaly temps w i = false) := by
  have key : ∀ i, i + 1 < w →
      roll_mean temps w i = none ∧ roll_var temps w i = none ∧
        roll_anomaly temps w i = false := by
    intro i hi
    have hm : roll_mean temps w i = none := by
      unfold roll_mean
      rw [if_neg]
      omega
    have hv : roll_var temps w i = none := by
      unfold roll_var
      rw [if_neg]
      omega
    refine ⟨hm, hv, ?_⟩
    unfold roll_anomaly
    rw [hm, hv]
  exact ⟨key, fun hlen i hi => key i (by omega)⟩

theorem rolling_band_head_rows_witness :
    roll_mean [(5 : ℚ)] 3 0 = none ∧ roll_var [(5 : ℚ)] 3 0 = none ∧
      roll_anomaly [(5 : ℚ)] 3 0 = false :=
  (rolling_band_head_rows [5] 3 (by decide)).1 0 (by decide)

/-- C9: speedup degeneracy — the reported speedup is
`t_seq / t_par` guarded by `t_par > 0`; a zero denominator yields the
explicit undefined marker (`None`, rendered as an em-dash by the page)
rather than a division error or an infinity. -/
theorem speedup_degeneracy (t_seq t_par : ℚ) (df : List Row)
    (cities : List String) (window : ℕ) (workers : ℤ)
    (collect : List CityResult → List CityResult) (hW : 1 ≤ workers) :
    speedup t_seq 0 = none ∧
    (0 < t_par → speedup t_seq t_par = some (t_seq / t_par)) ∧
    ∃ out, benchmark_historical df cities window workers t_seq t_par collect =
        Except.ok out ∧ out.speedup = speedup t_seq t_par := by
  refine ⟨by simp [speedup], fun h => by simp [speedup, h], ?_⟩
  refine ⟨⟨t_seq, t_par, speedup t_seq t_par,
    sortByCity (collect (seq_results df cities window))⟩, ?_, rfl⟩
  unfold benchmark_historical
  rw [if_neg (by omega)]

theorem speedup_degeneracy_witness :
    speedup 1 0 = none ∧
    (0 < (2 : ℚ) → speedup 1 2 = some (1 / 2)) ∧
    ∃ out, benchmark_historical [] [] 1 1 1 2 id = Except.ok out ∧
      out.speedup = speedup 1 2 :=
  speedup_degeneracy 1 2 [] [] 1 1 id (by decide)

/-- C8 counterexample: the harness does not clamp the worker count — with
`workers = 0` the pool construction raises ValueError and the whole
benchmark fails instead of running to completion. -/
theorem worker_clamp_counterexample :
    benchmark_historical [] [] 30 0 0 0 id =
      Except.error "max_workers must be greater than 0" := rfl

/-- C8 amended: the worker count is passed to the pool unclamped; any
`workers ≤ 0` raises, and for every `workers ≥ 1` the harness completes
normally (the page's slider only produces values ≥ 1). -/
theorem worker_pool_requires_positive (df : List Row) (cities : List String)
    (window : ℕ) (workers : ℤ) (t_seq t_par : ℚ)
    (collect : List CityResult → List CityResult) (hW : 1 ≤ workers) :
    benchmark_historical df cities window workers t_seq t_par collect =
      Except.ok ⟨t_seq, t_par, speedup t_seq t_par,
        sortByCity (collect (seq_results df cities window))⟩ := by
  unfold benchmark_historical
  rw [if_neg (by omega)]

theorem worker_pool_requires_positive_witness :
    benchmark_historical [] [] 30 1 0 0 id =
      Except.ok ⟨0, 0, speedup 0 0, sortByCity (id (seq_results [] [] 30))⟩ :=
  worker_pool_requires_positive [] [] 30 1 0 0 id (by decide)

/-- C7: a city with zero rows in the table yields degenerate statistics —
`n_days = 0`, both anomaly counts 0, NaT period bounds — and the analysis
is a total function, so nothing is raised. -/
theorem empty_city_degenerate (df : List Row) (c : String) (w : ℕ)
    (h : df.filter (fun r => r.city == c) = []) :
    analyze_city_block c (df.filter (fun r => r.city == c)) w =
      { city := c, n_days := 0, period_start := none, period_end := none,
        rolling_anomalies := 0, season_anomalies := 0 } := by
  rw [h]
  rfl

theorem empty_city_degenerate_witness :
    ([(⟨"Boston", 0, 1, "winter"⟩ : Row)].filter (fun r => r.city == "X") = []) ∧
    analyze_city_block "X"
        ([(⟨"Boston", 0, 1, "winter"⟩ : Row)].filter (fun r => r.city == "X")) 30 =
      ⟨"X", 0, none, none, 0, 0⟩ :=
  ⟨rfl, empty_city_degenerate [⟨"Boston", 0, 1, "winter"⟩] "X" 30 rfl⟩

/-- C3: a season with exactly one reading has an undefined (NaN) std, the
NaN bound comparisons make every reading of that season non-anomalous, and
the seasonal detector is a total function (no error raised). -/
theorem season_single_sample (rows : List Row) (s : String)
    (h : (season_temps rows s).length = 1) :
    season_var rows s = none ∧
    ∀ r ∈ rows, r.season = s → season_anomaly rows r = false := by
  have hv : season_var rows s = none := by
    unfold season_var
    rw [if_neg]
    omega
  refine ⟨hv, fun r hr hrs => ?_⟩
  unfold season_anomaly
  rw [hrs, hv]
  cases season_mean rows s <;> rfl

theorem season_single_sample_witness :
    ((season_temps [⟨"A", 0, 5, "winter"⟩] "winter").length = 1) ∧
    season_var [⟨"A", 0, 5, "winter"⟩] "winter" = none ∧
    season_anomaly [⟨"A", 0, 5, "winter"⟩] ⟨"A", 0, 5, "winter"⟩ = false :=
  ⟨rfl, (season_single_sample [⟨"A", 0, 5, "winter"⟩] "winter" rfl).1,
    (season_single_sample [⟨"A", 0, 5, "winter"⟩] "winter" rfl).2 _
      (List.mem_singleton.mpr rfl) rfl⟩

/-- A per-city task that fails on "B" only, used to exhibit the batch
harness's propagation behavior. -/
def failing_task : String → Except String CityResult :=
  fun c => if c = "B" then Except.error "boom"
           else Except.ok (analyze_city_block c [] 30)

/-- C5 counterexample: in the batch harness the per-city loop has no
exception handler, so a failure while processing one city ("B") aborts the
whole run — no result is recorded for "B", and the results of "A" and "C"
are lost as well, contradicting the claimed isolation for both harnesses. -/
theorem per_city_isolation_counterexample :
    benchmark_city_loop failing_task ["A", "B", "C"] = Except.error "boom" := rfl

/-- C5 amended: per-city failure isolation holds in the live-weather
fan-out harness — the result list always has one row per city, a city
whose fetch raises gets a null temperature, and each row depends only on
its own city's fetch outcome (changing the outcome of one city `c0`
leaves every other row unchanged). The batch historical harness does not
isolate: an unhandled per-city exception aborts the whole run (see the
counterexample). -/
theorem per_city_isolation_fanout (fetch fetchF : String → Except String OwmResponse)
    (cities : List String) (c0 : String)
    (hagree : ∀ c, c ≠ c0 → fetchF c = fetch c) :
    (async_many fetchF cities).length = cities.length ∧
    (∀ c e, fetchF c = Except.error e → async_row fetchF c = (c, none)) ∧
    (∀ i (hi : i < cities.length)
      (hiF : i < (async_many fetchF cities).length)
      (hiO : i < (async_many fetch cities).length),
      cities[i] ≠ c0 → (async_many fetchF cities)[i] = (async_many fetch cities)[i]) := by
  refine ⟨by simp [async_many], ?_, ?_⟩
  · intro c e he
    unfold async_row
    rw [he]
  · intro i hi hiF hiO hne
    unfold async_many at hiF hiO ⊢
    rw [List.getElem_map, List.getElem_map]
    unfold async_row
    rw [hagree _ hne]

/-- Happy-path transport oracle: every city answers with a parsed payload. -/
def demo_fetch_ok : String → Except String OwmResponse :=
  fun _ => Except.ok ⟨"200", some 20, none⟩

/-- Transport oracle in which exactly the city "B" raises (times out). -/
def demo_fetch_failB : String → Except String OwmResponse :=
  fun c => if c = "B" then Except.error "timeout" else demo_fetch_ok c

theorem per_city_isolation_fanout_witness :
    (async_many demo_fetch_failB ["A", "B"]).length = (["A", "B"] : List String).length ∧
    (∀ c e, demo_fetch_failB c = Except.error e →
      async_row demo_fetch_failB c = (c, none)) ∧
    (∀ i (hi : i < (["A", "B"] : List String).length)
      (hiF : i < (async_many demo_fetch_failB ["A", "B"]).length)
      (hiO : i < (async_many demo_fetch_ok ["A", "B"]).length),
      (["A", "B"] : List String)[i] ≠ "B" →
      (async_many demo_fetch_failB ["A", "B"])[i] =
        (async_many demo_fetch_ok ["A", "B"])[i]) :=
  per_city_isolation_fanout demo_fetch_ok demo_fetch_failB ["A", "B"] "B"
    (fun c hc => by simp [demo_fetch_failB, hc])

lemma mem_of_mem_firstDedup {a : String} :
    ∀ {l : List String}, a ∈ firstDedup l → a ∈ l
  | [], h => by simp [firstDedup] at h
  | c :: cs, h => by
    rw [firstDedup, List.mem_cons] at h
    rcases h with rfl | h2
    · exact List.mem_cons_self _ _
    · exact List.mem_cons_of_mem _ (mem_of_mem_firstDedup (List.mem_filter.1 h2).1)

lemma firstDedup_nodup : ∀ l : List String, (firstDedup l).Nodup
  | [] => by simp [firstDedup]
  | c :: cs => by
    rw [firstDedup, List.nodup_cons]
    refine ⟨fun hmem => ?_, (firstDedup_nodup cs).filter _⟩
    have := (List.mem_filter.1 hmem).2
    simp at this

lemma firstDedup_eq_self : ∀ {l : List String}, l.Nodup → firstDedup l = l
  | [], _ => rfl
  | c :: cs, h => by
    have h1 : c ∉ cs := (List.nodup_cons.1 h).1
    rw [firstDedup, firstDedup_eq_self (List.nodup_cons.1 h).2]
    congr 1
    rw [List.filter_eq_self]
    intro a ha
    exact decide_eq_true fun heq : a = c => h1 (heq ▸ ha)

lemma async_row_fst (fetch : String → Except String OwmResponse) (c : String) :
    (async_row fetch c).1 = c := by
  unfold async_row
  split
  · rfl
  · split
    · rfl
    · rfl

lemma seq_results_map_city (df : List Row) (cities : List String) (window : ℕ) :
    (seq_results df cities window).map (fun r => r.city) = firstDedup cities := by
  have hproj : (fun c => (analyze_city_block c
      (df.filter (fun r => r.city == c)) window).city) = fun c : String => c := rfl
  simp only [seq_results, city_groups, List.map_map, Function.comp_def, hproj]
  exact List.map_id _

instance : IsTotal CityResult (fun a b => a.city ≤ b.city) :=
  ⟨fun a b => le_total a.city b.city⟩

instance : IsTrans CityResult (fun a b => a.city ≤ b.city) :=
  ⟨fun _ _ _ h1 h2 => le_trans h1 h2⟩

instance : IsAntisymm CityResult (fun a b => a.city < b.city) :=
  ⟨fun _ _ h1 h2 => absurd h2 (lt_asymm h1)⟩

lemma sortByCity_perm (l : List CityResult) : (sortByCity l).Perm l :=
  List.perm_insertionSort _ l

lemma sortByCity_sorted (l : List CityResult) :
    List.Sorted (fun a b : CityResult => a.city ≤ b.city) (sortByCity l) :=
  List.sorted_insertionSort _ l

lemma sorted_strict_of_nodup {l : List CityResult}
    (hs : List.Sorted (fun a b : CityResult => a.city ≤ b.city) l)
    (hnd : (l.map (fun r => r.city)).Nodup) :
    List.Sorted (fun a b : CityResult => a.city < b.city) l := by
  have hne : List.Pairwise (fun a b : CityResult => a.city ≠ b.city) l :=
    List.pairwise_map.mp hnd
  exact (List.Pairwise.and hs hne).imp fun h => lt_of_le_of_ne h.1 h.2

lemma sortByCity_eq_of_perm {l₁ l₂ : List CityResult} (h : l₁.Perm l₂)
    (hnd : (l₂.map (fun r => r.city)).Nodup) :
    sortByCity l₁ = sortByCity l₂ := by
  have hp : (sortByCity l₁).Perm (sortByCity l₂) :=
    ((sortByCity_perm l₁).trans h).trans (sortByCity_perm l₂).symm
  have hnd₂ : ((sortByCity l₂).map (fun r => r.city)).Nodup :=
    (((sortByCity_perm l₂).map _).nodup_iff).2 hnd
  have hnd₁ : ((sortByCity l₁).map (fun r => r.city)).Nodup :=
    ((hp.map _).nodup_iff).2 hnd₂
  exact List.eq_of_perm_of_sorted hp
    (sorted_strict_of_nodup (sortByCity_sorted l₁) hnd₁)
    (sorted_strict_of_nodup (sortByCity_sorted l₂) hnd₂)

/-- C4: sequential/parallel equivalence of the batch harness — whatever
completion order the thread pool produces (any permutation of the per-city
results), sorting by city name yields a result list identical
field-by-field to the sorted sequential results. -/
theorem seq_par_equivalence (df : List Row) (cities : List String) (window : ℕ)
    (par_results : List CityResult)
    (hperm : par_results.Perm (seq_results df cities window)) :
    sortByCity par_results = sortByCity (seq_results df cities window) :=
  sortByCity_eq_of_perm hperm
    (by rw [seq_results_map_city]; exact firstDedup_nodup cities)

/-- A two-city demonstration table. -/
def demo_table : List Row :=
  [⟨"B", 0, 10, "winter"⟩, ⟨"A", 0, 20, "summer"⟩]

/-- The per-city analysis results of `demo_table`. -/
def demo_res_a : CityResult :=
  analyze_city_block "A" (demo_table.filter (fun r => r.city == "A")) 1

def demo_res_b : CityResult :=
  analyze_city_block "B" (demo_table.filter (fun r => r.city == "B")) 1

theorem seq_par_equivalence_witness :
    sortByCity [demo_res_b, demo_res_a] =
      sortByCity (seq_results demo_table ["A", "B"] 1) := by
  refine seq_par_equivalence demo_table ["A", "B"] 1 [demo_res_b, demo_res_a] ?_
  have h : seq_results demo_table ["A", "B"] 1 = [demo_res_a, demo_res_b] := rfl
  rw [h]
  exact List.Perm.swap demo_res_a demo_res_b []

/-- C6: result completeness and ordering — the fan-out harness produces one
result per input city in input order (both the utils gather variant and the
page's zip variant), the batch harness's sequential strategy produces one
result per input city, any parallel completion order still yields (after
the harness's sort) a result set whose cities are exactly the input cities,
and that reported set is sorted by city name. -/
theorem result_completeness (fetch : String → Except String OwmResponse)
    (df : List Row) (cities : List String) (window : ℕ)
    (par_results : List CityResult) (hnd : cities.Nodup)
    (hperm : par_results.Perm (seq_results df cities window)) :
    (fetch_many_cities_async fetch cities).length = cities.length ∧
    (async_many fetch cities).map Prod.fst = cities ∧
    (seq_results df cities window).map (fun r => r.city) = cities ∧
    ((sortByCity par_results).map (fun r => r.city)).Perm cities ∧
    List.Sorted (fun a b : CityResult => a.city ≤ b.city) (sortByCity par_results) := by
  have hseq : (seq_results df cities window).map (fun r => r.city) = cities := by
    rw [seq_results_map_city, firstDedup_eq_self hnd]
  refine ⟨by simp [fetch_many_cities_async], ?_, hseq, ?_, sortByCity_sorted _⟩
  · simp [async_many, List.map_map, Function.comp_def, async_row_fst]
  · rw [← hseq]
    exact ((sortByCity_perm par_results).map _).trans (hperm.map _)

theorem result_completeness_witness :
    (fetch_many_cities_async demo_fetch_ok ["A", "B"]).length =
      (["A", "B"] : List String).length ∧
    (async_many demo_fetch_ok ["A", "B"]).map Prod.fst = ["A", "B"] ∧
    (seq_results demo_table ["A", "B"] 1).map (fun r => r.city) = ["A", "B"] ∧
    ((sortByCity (seq_results demo_table ["A", "B"] 1)).map
      (fun r => r.city)).Perm ["A", "B"] ∧
    List.Sorted (fun a b : CityResult => a.city ≤ b.city)
      (sortByCity (seq_results demo_table ["A", "B"] 1)) :=
  result_completeness demo_fetch_ok demo_table ["A", "B"] 1
    (seq_results demo_table ["A", "B"] 1) (by decide) (List.Perm.refl _)

lemma sampleVar_nonneg {l : List ℚ} (hl : 2 ≤ l.length) : 0 ≤ sampleVar l := by
  unfold sampleVar
  apply div_nonneg
  · apply List.sum_nonneg
    intro x hx
    obtain ⟨y, hy, rfl⟩ := List.mem_map.1 hx
    exact sq_nonneg _
  · have h2 : (2 : ℚ) ≤ (l.length : ℚ) := by exact_mod_cast hl
    linarith

lemma band_iff (t m v : ℚ) (hv : 0 ≤ v) :
    ((t - m) ^ 2 > 4 * v) ↔
      ((t : ℝ) > (m : ℝ) + 2 * Real.sqrt (v : ℝ) ∨
       (t : ℝ) < (m : ℝ) - 2 * Real.sqrt (v : ℝ)) := by
  have hv0 : (0 : ℝ) ≤ (v : ℝ) := by exact_mod_cast hv
  have hs0 : 0 ≤ Real.sqrt (v : ℝ) := Real.sqrt_nonneg _
  have hs2 : Real.sqrt (v : ℝ) ^ 2 = (v : ℝ) := Real.sq_sqrt hv0
  constructor
  · intro h
    have hR : 4 * (v : ℝ) < ((t : ℝ) - (m : ℝ)) ^ 2 := by exact_mod_cast h
    rcases le_or_lt (m : ℝ) (t : ℝ) with hle | hlt
    · left
      have hsq : (2 * Real.sqrt (v : ℝ)) ^ 2 < ((t : ℝ) - (m : ℝ)) ^ 2 := by
        nlinarith
      have hlt2 : 2 * Real.sqrt (v : ℝ) < (t : ℝ) - (m : ℝ) :=
        lt_of_pow_lt_pow_left₀ 2 (by linarith) hsq
      linarith
    · right
      have hsq : (2 * Real.sqrt (v : ℝ)) ^ 2 < ((m : ℝ) - (t : ℝ)) ^ 2 := by
        nlinarith
      have hlt2 : 2 * Real.sqrt (v : ℝ) < (m : ℝ) - (t : ℝ) :=
        lt_of_pow_lt_pow_left₀ 2 (by linarith) hsq
      linarith
  · intro h
    have hR : 4 * (v : ℝ) < ((t : ℝ) - (m : ℝ)) ^ 2 := by
      rcases h with h | h <;> nlinarith
    exact_mod_cast hR

/-- C1: the rolling band realizes the spec — at every position with a full
window, `roll_mean` is the mean of the `w` temperatures at positions
`[i-w+1, i]`, `roll_std` is their sample standard deviation (Bessel, N-1;
its square `roll_var` is defined exactly when the window holds at least
two points, matching pandas ddof=1 returning NaN for `w = 1`), and
`roll_anomaly` holds iff both band statistics are defined and the
temperature lies strictly outside `[mean - 2·std, mean + 2·std]`, where
`std = Real.sqrt var` is the actual standard deviation over ℝ. -/
theorem rolling_band_definition (temps : List ℚ) (w i : ℕ)
    (hw : 1 ≤ w) (hwi : w - 1 ≤ i) (hi : i < temps.length) :
    (windowAt temps w i).length = w ∧
    roll_mean temps w i = some (listMean (windowAt temps w i)) ∧
    (2 ≤ w → roll_var temps w i = some (sampleVar (windowAt temps w i))) ∧
    (roll_anomaly temps w i = true ↔
      ∃ m v, roll_mean temps w i = some m ∧ roll_var temps w i = some v ∧
        ((temps.getD i 0 : ℝ) > (m : ℝ) + 2 * Real.sqrt (v : ℝ) ∨
         (temps.getD i 0 : ℝ) < (m : ℝ) - 2 * Real.sqrt (v : ℝ))) := by
  have hwi1 : w ≤ i + 1 := by omega
  have hlen : (windowAt temps w i).length = w := by
    simp only [windowAt, List.length_drop, List.length_take]
    omega
  have hM : roll_mean temps w i = some (listMean (windowAt temps w i)) := by
    unfold roll_mean
    rw [if_pos ⟨hw, hwi1⟩]
  refine ⟨hlen, hM, fun h2 => by unfold roll_var; rw [if_pos ⟨h2, hwi1⟩], ?_⟩
  by_cases h2 : 2 ≤ w
  · have hV : roll_var temps w i = some (sampleVar (windowAt temps w i)) := by
      unfold roll_var
      rw [if_pos ⟨h2, hwi1⟩]
    have hvn : 0 ≤ sampleVar (windowAt temps w i) :=
      sampleVar_nonneg (by rw [hlen]; exact h2)
    simp only [roll_anomaly, hM, hV, decide_eq_true_eq, Option.some.injEq]
    constructor
    · intro hq
      exact ⟨_, _, rfl, rfl, (band_iff _ _ _ hvn).1 hq⟩
    · rintro ⟨m, v, rfl, rfl, hband⟩
      exact (band_iff _ _ _ hvn).2 hband
  · have hV : roll_var temps w i = none := by
      unfold roll_var
      rw [if_neg]
      intro hc
      exact h2 hc.1
    simp [roll_anomaly, hM, hV]

theorem rolling_band_definition_witness :
    ((windowAt [(3 : ℚ), 4] 2 1).length = 2) ∧
    roll_mean [(3 : ℚ), 4] 2 1 = some (listMean (windowAt [(3 : ℚ), 4] 2 1)) ∧
    (2 ≤ 2 → roll_var [(3 : ℚ), 4] 2 1 =
      some (sampleVar (windowAt [(3 : ℚ), 4] 2 1))) ∧
    (roll_anomaly [(3 : ℚ), 4] 2 1 = true ↔
      ∃ m v, roll_mean [(3 : ℚ), 4] 2 1 = some m ∧
        roll_var [(3 : ℚ), 4] 2 1 = some v ∧
        (((([(3 : ℚ), 4].getD 1 0) : ℚ) : ℝ) > (m : ℝ) + 2 * Real.sqrt (v : ℝ) ∨
         ((([(3 : ℚ), 4].getD 1 0) : ℚ) : ℝ) < (m : ℝ) - 2 * Real.sqrt (v : ℝ))) :=
  rolling_band_definition [3, 4] 2 1 (by decide) (by decide) (by decide)
